import Mathlib

/-!
Verification of the Chat Relay backend (`src/backend_service/src/api/main.py`).

The development shallowly embeds the Python relay: JSON values are an
inductive type, Python dictionary access and truthiness (`x or y`,
`if not x`) are explicit functions, fallible Python expressions
(attribute errors, index errors, pydantic validation errors) are `Except`
values, and the single outbound HTTP call is modelled by an
`UpstreamOutcome` parameter describing what the network does, together
with a list of dispatch records capturing every outbound POST the handler
performs.
-/

namespace ChatRelay

/-- JSON values as decoded by Python (`resp.json()`, request bodies).
Numbers are modelled as integers; the claims under study exercise only
integral numeric fields (token counts, status data). -/
inductive Json where
  | null : Json
  | bool (b : Bool) : Json
  | num (n : Int) : Json
  | str (s : String) : Json
  | arr (elems : List Json) : Json
  | obj (fields : List (String × Json)) : Json

/-- Python truthiness of a decoded JSON value: `None`, `False`, `0`, `""`,
`[]` and `{}` are falsy, everything else is truthy. -/
def Json.falsy : Json → Bool
  | .null => true
  | .bool b => !b
  | .num n => n == 0
  | .str s => s == ""
  | .arr elems => elems.isEmpty
  | .obj fields => fields.isEmpty

/-- Python `a or b` on JSON values: `b` if `a` is falsy, else `a`. -/
def pyOr (a b : Json) : Json := if a.falsy then b else a

/-- Lookup in a decoded JSON object, as Python `dict.get(k)`: the value if
the key is present, `None` otherwise.  Python dictionaries have unique
keys, so first-match lookup in the association list is faithful. -/
def pyGet (fields : List (String × Json)) (k : String) : Json :=
  match fields.find? (fun kv => kv.1 == k) with
  | some kv => kv.2
  | none => Json.null

/-- Lookup with an explicit default, as Python `dict.get(k, d)`. -/
def pyGetD (fields : List (String × Json)) (k : String) (d : Json) : Json :=
  match fields.find? (fun kv => kv.1 == k) with
  | some kv => kv.2
  | none => d

/-- Python exceptions that the relay's own code can raise and catch:
pydantic `ValidationError` (caught separately by the handlers) and
everything else (`AttributeError`/`TypeError`/`IndexError`/`KeyError`),
which the handlers catch with `except Exception`. -/
inductive PyExc where
  | validationError (msg : String)
  | otherError (msg : String)

/-- Python `v.get(k)`: succeeds when `v` is a dict, raises
`AttributeError` otherwise. -/
def dictGet (v : Json) (k : String) : Except PyExc Json :=
  match v with
  | .obj fields => .ok (pyGet fields k)
  | _ => .error (.otherError "AttributeError: no attribute get")

/-- Python `v.get(k, d)` with a default, raising when `v` is not a dict. -/
def dictGetD (v : Json) (k : String) (d : Json) : Except PyExc Json :=
  match v with
  | .obj fields => .ok (pyGetD fields k d)
  | _ => .error (.otherError "AttributeError: no attribute get")

/-- Python `v[0]`: first element of a list or string (raising `IndexError`
when empty), `TypeError`/`KeyError` on non-sequences. -/
def pyIndex0 (v : Json) : Except PyExc Json :=
  match v with
  | .arr (x :: _) => .ok x
  | .arr [] => .error (.otherError "IndexError: list index out of range")
  | .str s =>
    match s.toList with
    | c :: _ => .ok (.str (String.mk [c]))
    | [] => .error (.otherError "IndexError: string index out of range")
  | _ => .error (.otherError "TypeError: object is not subscriptable")

/-- Escape one character as in Python `json.dumps` output. -/
def escapeJsonChar (c : Char) : String :=
  if c = '"' then "\\\""
  else if c = '\\' then "\\\\"
  else if c = '\n' then "\\n"
  else if c = '\t' then "\\t"
  else if c = '\r' then "\\r"
  else String.mk [c]

/-- Escape a string as in Python `json.dumps` output. -/
def escapeJson (s : String) : String :=
  String.join (s.toList.map escapeJsonChar)

mutual

/-- Python `json.dumps` with its default separators: re-serializes a
decoded JSON value. -/
def dumps : Json → String
  | .null => "null"
  | .bool true => "true"
  | .bool false => "false"
  | .num n => toString n
  | .str s => "\"" ++ escapeJson s ++ "\""
  | .arr elems => "[" ++ String.intercalate ", " (dumpsList elems) ++ "]"
  | .obj fields => "\x7b" ++ String.intercalate ", " (dumpsFields fields) ++ "\x7d"

/-- Serialize the elements of a JSON array. -/
def dumpsList : List Json → List String
  | [] => []
  | v :: rest => dumps v :: dumpsList rest

/-- Serialize the fields of a JSON object. -/
def dumpsFields : List (String × Json) → List String
  | [] => []
  | (k, v) :: rest => ("\"" ++ escapeJson k ++ "\": " ++ dumps v) :: dumpsFields rest

end

mutual

/-- Python `repr` of a decoded JSON value (used by `str` on containers):
strings are quoted with apostrophes (written escaped here). -/
def pyRepr : Json → String
  | .null => "None"
  | .bool true => "True"
  | .bool false => "False"
  | .num n => toString n
  | .str s => "\x27" ++ s ++ "\x27"
  | .arr elems => "[" ++ String.intercalate ", " (pyReprList elems) ++ "]"
  | .obj fields => "\x7b" ++ String.intercalate ", " (pyReprFields fields) ++ "\x7d"

/-- `repr` of the elements of a JSON array. -/
def pyReprList : List Json → List String
  | [] => []
  | v :: rest => pyRepr v :: pyReprList rest

/-- `repr` of the fields of a JSON object. -/
def pyReprFields : List (String × Json) → List String
  | [] => []
  | (k, v) :: rest => ("\x27" ++ k ++ "\x27: " ++ pyRepr v) :: pyReprFields rest

end

/-- Python `str()` of a decoded JSON value, as applied by an f-string:
strings unchanged, `None`/`True`/`False` spelled the Python way,
containers via `repr` of their elements. -/
def pyStr : Json → String
  | .str s => s
  | v => pyRepr v

/-- Pydantic model `AIResponseUsage`: three independently nullable integer
token counters. -/
structure AIResponseUsage where
  prompt_tokens : Option Int
  completion_tokens : Option Int
  total_tokens : Option Int
deriving DecidableEq

/-- Pydantic validation of an `Optional[int]` field: `None` stays absent,
an integer is accepted, anything else raises `ValidationError`. -/
def validateOptionalInt (v : Json) : Except PyExc (Option Int) :=
  match v with
  | .null => .ok none
  | .num n => .ok (some n)
  | _ => .error (.validationError "value is not a valid integer")

/-- Constructing `AIResponseUsage(prompt_tokens=…, completion_tokens=…,
total_tokens=…)`: each keyword argument is validated as `Optional[int]`. -/
def mkAIResponseUsage (p c t : Json) : Except PyExc AIResponseUsage :=
  match validateOptionalInt p with
  | .error e => .error e
  | .ok p' =>
    match validateOptionalInt c with
    | .error e => .error e
    | .ok c' =>
      match validateOptionalInt t with
      | .error e => .error e
      | .ok t' => .ok ⟨p', c', t'⟩

/-- The dictionary returned by `_extract_content_and_usage`: raw content
and model values (arbitrary JSON, exactly as Python leaves them) and the
validated usage object. -/
structure ExtractResult where
  content : Json
  usage : AIResponseUsage
  model : Json

/-- `_extract_content_and_usage(openai_resp)` from
`src/backend_service/src/api/main.py` (lines 194–204), over a decoded
JSON value, with each fallible Python step made explicit:

* `choice = (openai_resp.get("choices") or [{}])[0]`
* `content = ((choice.get("message") or {}).get("content")) or ""`
* `usage_raw = openai_resp.get("usage") or {}`
* `usage = AIResponseUsage(prompt_tokens=…, completion_tokens=…, total_tokens=…)`
* `model_used = openai_resp.get("model") or DEFAULT_MODEL`

The configured `DEFAULT_MODEL` is passed explicitly. -/
def _extract_content_and_usage (DEFAULT_MODEL : String) (openai_resp : Json) :
    Except PyExc ExtractResult :=
  match dictGet openai_resp "choices" with
  | .error e => .error e
  | .ok choicesRaw =>
    match pyIndex0 (pyOr choicesRaw (.arr [.obj []])) with
    | .error e => .error e
    | .ok choice =>
      match dictGet choice "message" with
      | .error e => .error e
      | .ok messageRaw =>
        match dictGet (pyOr messageRaw (.obj [])) "content" with
        | .error e => .error e
        | .ok contentRaw =>
          let content := pyOr contentRaw (.str "")
          match dictGet openai_resp "usage" with
          | .error e => .error e
          | .ok usageRawV =>
            let usage_raw := pyOr usageRawV (.obj [])
            match dictGet usage_raw "prompt_tokens" with
            | .error e => .error e
            | .ok pv =>
              match dictGet usage_raw "completion_tokens" with
              | .error e => .error e
              | .ok cv =>
                match dictGet usage_raw "total_tokens" with
                | .error e => .error e
                | .ok tv =>
                  match mkAIResponseUsage pv cv tv with
                  | .error e => .error e
                  | .ok usage =>
                    match dictGet openai_resp "model" with
                    | .error e => .error e
                    | .ok modelRaw =>
                      let model_used := pyOr modelRaw (.str DEFAULT_MODEL)
                      .ok ⟨content, usage, model_used⟩

/-- Environment-derived configuration of the relay (module-level constants
of `main.py`).  `OPENAI_API_KEY` is `none` when the variable is unset;
the others always carry a value because `_env` is called with a default. -/
structure Config where
  DEFAULT_MODEL : String
  OPENAI_API_KEY : Option String
  OPENAI_BASE_URL : String
  REQUEST_TIMEOUT : ℚ
deriving DecidableEq

/-- Python truthiness of `OPENAI_API_KEY` (`if not OPENAI_API_KEY`):
falsy when unset or the empty string. -/
def keyFalsy : Option String → Bool
  | none => true
  | some s => s == ""

/-- One entry of the `messages` list: a `{"role": …, "content": …}` dict. -/
structure ChatMessage where
  role : String
  content : String
deriving DecidableEq

/-- The JSON payload of the outbound POST:
`{"model": use_model, "messages": messages, "temperature": 0.2}`. -/
structure ChatPayload where
  model : String
  messages : List ChatMessage
  temperature : ℚ
deriving DecidableEq

/-- One outbound HTTP POST as performed by `_call_openai_chat`: target
URL, bearer-token authorization header, JSON payload, and timeout. -/
structure DispatchRecord where
  url : String
  authorization : String
  payload : ChatPayload
  timeout : ℚ
deriving DecidableEq

/-- Python `OPENAI_BASE_URL.rstrip('/')`: drop all trailing slashes. -/
def rstripSlashes (s : String) : String :=
  String.mk (s.toList.reverse.dropWhile (fun c => c == '/')).reverse

/-- What the network does for the single outbound POST of one call:
a timeout (`httpx.TimeoutException`), a connection failure
(`httpx.RequestError`), or an HTTP response with a status code, the
result of `resp.json()` (`Except.error` when the body is not valid JSON,
so that `resp.json()` raises `JSONDecodeError`), and the raw body
`resp.text`. -/
inductive UpstreamOutcome where
  | timeout : UpstreamOutcome
  | connectionError (msg : String) : UpstreamOutcome
  | response (status_code : Nat) (jsonBody : Except Unit Json) (text : String) : UpstreamOutcome

/-- A raised `fastapi.HTTPException`: status code plus the `detail`
object passed at the raise site (an arbitrary Python value, kept as JSON
so that its shape is a proved property, not a typing artifact). -/
structure HTTPError where
  status_code : Nat
  detail : Json

/-- The `message` computed for an upstream HTTP error (lines 180–184):
```
try:
    data = resp.json()
    message = data.get("error", {}).get("message") or json.dumps(data)
except Exception:
    message = resp.text
```
`resp.json()` raising, `data.get` raising (non-dict data), and
`.get("message")` raising (non-dict `error` value) all fall into the
`except` branch and use the raw body text. -/
def upstreamErrorMessage (jsonBody : Except Unit Json) (text : String) : String :=
  match jsonBody with
  | .error _ => text
  | .ok data =>
    match dictGetD data "error" (.obj []) with
    | .error _ => text
    | .ok errVal =>
      match dictGet errVal "message" with
      | .error _ => text
      | .ok msgVal => if msgVal.falsy then dumps data else pyStr msgVal

/-- Python `x or d` for `Optional[str]` `x` and string default `d`
(`model or DEFAULT_MODEL`, `req.systemPrompt or "You are …"`). -/
def pyOrStr (x : Option String) (d : String) : String :=
  match x with
  | some s => if s == "" then d else s
  | none => d

/-- The single outbound POST built by `_call_openai_chat` (lines 157–168):
`use_model = model or DEFAULT_MODEL`, URL from the base URL with trailing
slashes stripped, bearer authorization, and the fixed-temperature
payload. -/
def dispatchOf (cfg : Config) (messages : List ChatMessage) (model : Option String) :
    DispatchRecord :=
  ⟨rstripSlashes cfg.OPENAI_BASE_URL ++ "/chat/completions",
   "Bearer " ++ (match cfg.OPENAI_API_KEY with | some k => k | none => ""),
   ⟨pyOrStr model cfg.DEFAULT_MODEL, messages, 0.2⟩,
   cfg.REQUEST_TIMEOUT⟩

/-- `_call_openai_chat(messages, model)` (lines 154–192), with the
network's behaviour supplied as an `UpstreamOutcome`.  Returns the
handler-visible result (decoded JSON on success, the raised
`HTTPException` on failure) paired with the list of outbound POSTs
actually performed (empty before dispatch, a single record after). -/
def _call_openai_chat (cfg : Config) (messages : List ChatMessage)
    (model : Option String) (net : UpstreamOutcome) :
    Except HTTPError Json × List DispatchRecord :=
  if keyFalsy cfg.OPENAI_API_KEY then
    (.error ⟨500, .obj [("error", .obj [("message", .str "OPENAI_API_KEY not set"),
      ("code", .str "missing_api_key")])]⟩, [])
  else
    let d : DispatchRecord := dispatchOf cfg messages model
    match net with
    | .timeout =>
      (.error ⟨504, .obj [("error", .obj [("message", .str "Upstream timeout from OpenAI"),
        ("code", .str "upstream_timeout")])]⟩, [d])
    | .connectionError msg =>
      (.error ⟨502, .obj [("error", .obj [("message", .str ("OpenAI connection error: " ++ msg)),
        ("code", .str "upstream_unreachable")])]⟩, [d])
    | .response status_code jsonBody text =>
      if status_code ≥ 400 then
        (.error ⟨502, .obj [("error", .obj [("message",
          .str ("OpenAI API error: " ++ upstreamErrorMessage jsonBody text)),
          ("code", .str "upstream_error")])]⟩, [d])
      else
        match jsonBody with
        | .error _ =>
          (.error ⟨502, .obj [("error", .obj [("message", .str "Invalid JSON from OpenAI"),
            ("code", .str "invalid_upstream")])]⟩, [d])
        | .ok data => (.ok data, [d])

/-- Pydantic request model `GenerateRequest`: required `prompt`, optional
`language`, `systemPrompt` and `model`. -/
structure GenerateRequest where
  prompt : String
  language : Option String
  systemPrompt : Option String
  model : Option String
deriving DecidableEq

/-- Pydantic request model `ExplainRequest`: required `code`, optional
`language`, `model` and `systemPrompt`. -/
structure ExplainRequest where
  code : String
  language : Option String
  model : Option String
  systemPrompt : Option String
deriving DecidableEq

/-- Pydantic request model `DebugRequest`: required `code`, optional
`language`, `error`, `model` and `systemPrompt`. -/
structure DebugRequest where
  code : String
  language : Option String
  error : Option String
  model : Option String
  systemPrompt : Option String
deriving DecidableEq

/-- Pydantic validation of a required `str` field: the field must be
present and a string (absence is seen here as JSON null, which is also
rejected for a non-optional `str`). -/
def validateRequiredStr (v : Json) : Except Unit String :=
  match v with
  | .str s => .ok s
  | _ => .error ()

/-- Pydantic validation of an `Optional[str]` field: absent or null
becomes `None`, a string is accepted, anything else is rejected. -/
def validateOptionalStr (v : Json) : Except Unit (Option String) :=
  match v with
  | .null => .ok none
  | .str s => .ok (some s)
  | _ => .error ()

/-- FastAPI request-body validation for `POST /generate` against
`GenerateRequest`: the body must be a JSON object whose fields validate
per the model; on failure FastAPI rejects the request before the handler
runs. -/
def validateGenerateRequest (body : Json) : Except Unit GenerateRequest :=
  match body with
  | .obj fields =>
    match validateRequiredStr (pyGet fields "prompt") with
    | .error e => .error e
    | .ok prompt =>
      match validateOptionalStr (pyGet fields "language") with
      | .error e => .error e
      | .ok language =>
        match validateOptionalStr (pyGet fields "systemPrompt") with
        | .error e => .error e
        | .ok systemPrompt =>
          match validateOptionalStr (pyGet fields "model") with
          | .error e => .error e
          | .ok model => .ok ⟨prompt, language, systemPrompt, model⟩
  | _ => .error ()

/-- FastAPI request-body validation for `POST /explain` against
`ExplainRequest`. -/
def validateExplainRequest (body : Json) : Except Unit ExplainRequest :=
  match body with
  | .obj fields =>
    match validateRequiredStr (pyGet fields "code") with
    | .error e => .error e
    | .ok code =>
      match validateOptionalStr (pyGet fields "language") with
      | .error e => .error e
      | .ok language =>
        match validateOptionalStr (pyGet fields "model") with
        | .error e => .error e
        | .ok model =>
          match validateOptionalStr (pyGet fields "systemPrompt") with
          | .error e => .error e
          | .ok systemPrompt => .ok ⟨code, language, model, systemPrompt⟩
  | _ => .error ()

/-- FastAPI request-body validation for `POST /debug` against
`DebugRequest`. -/
def validateDebugRequest (body : Json) : Except Unit DebugRequest :=
  match body with
  | .obj fields =>
    match validateRequiredStr (pyGet fields "code") with
    | .error e => .error e
    | .ok code =>
      match validateOptionalStr (pyGet fields "language") with
      | .error e => .error e
      | .ok language =>
        match validateOptionalStr (pyGet fields "error") with
        | .error e => .error e
        | .ok error =>
          match validateOptionalStr (pyGet fields "model") with
          | .error e => .error e
          | .ok model =>
            match validateOptionalStr (pyGet fields "systemPrompt") with
            | .error e => .error e
            | .ok systemPrompt => .ok ⟨code, language, error, model, systemPrompt⟩
  | _ => .error ()

/-- Python truthiness of an `Optional[str]` value (`req.systemPrompt or d`,
`if req.language:`): falsy when `None` or empty. -/
def optStrFalsy : Option String → Bool
  | none => true
  | some s => s == ""

/-- Response model `GenerateResponse`: required content and model strings,
optional usage object. -/
structure GenerateResponse where
  content : String
  model : String
  usage : Option AIResponseUsage
deriving DecidableEq

/-- Constructing `GenerateResponse(content=…, model=…, usage=…)` from the
raw extraction results: pydantic validates `content` and `model` as
required strings (a non-string raises `ValidationError`); the usage
object is already validated. -/
def mkGenerateResponse (content model : Json) (usage : AIResponseUsage) :
    Except PyExc GenerateResponse :=
  match content with
  | .str c =>
    match model with
    | .str m => .ok ⟨c, m, some usage⟩
    | _ => .error (.validationError "model: value is not a valid string")
  | _ => .error (.validationError "content: value is not a valid string")

/-- The shared `try`/`except` body of the three handlers (lines 234–243,
repeated verbatim at lines 267–276 and 303–312): call upstream, extract,
build the response; re-raise `HTTPException`s, turn `ValidationError`
into a 400 `validation_error` envelope, and any other exception into a
500 `unexpected` envelope. -/
def relayAndNormalize (cfg : Config) (messages : List ChatMessage)
    (model : Option String) (net : UpstreamOutcome) :
    Except HTTPError GenerateResponse × List DispatchRecord :=
  match _call_openai_chat cfg messages model net with
  | (.error e, ds) => (.error e, ds)
  | (.ok raw, ds) =>
    match _extract_content_and_usage cfg.DEFAULT_MODEL raw with
    | .error (.validationError msg) =>
      (.error ⟨400, .obj [("error", .obj [("message", .str msg),
        ("code", .str "validation_error")])]⟩, ds)
    | .error (.otherError msg) =>
      (.error ⟨500, .obj [("error", .obj [("message", .str ("Unexpected error: " ++ msg)),
        ("code", .str "unexpected")])]⟩, ds)
    | .ok parsed =>
      match mkGenerateResponse parsed.content parsed.model parsed.usage with
      | .error (.validationError msg) =>
        (.error ⟨400, .obj [("error", .obj [("message", .str msg),
          ("code", .str "validation_error")])]⟩, ds)
      | .error (.otherError msg) =>
        (.error ⟨500, .obj [("error", .obj [("message", .str ("Unexpected error: " ++ msg)),
          ("code", .str "unexpected")])]⟩, ds)
      | .ok resp => (.ok resp, ds)

/-- The system instruction built by `generate` (lines 225–227). -/
def generate_system_text (req : GenerateRequest) : String :=
  let base := pyOrStr req.systemPrompt
    "You are an AI coding copilot. Provide concise, accurate, and developer-friendly output."
  if optStrFalsy req.language then base
  else base ++ " Where relevant, prefer examples in " ++ (req.language.getD "") ++ "."

/-- Handler of `POST /generate` (lines 223–243): two-message prompt
(system instruction first, the user prompt second), one relay call. -/
def generate (cfg : Config) (req : GenerateRequest) (net : UpstreamOutcome) :
    Except HTTPError GenerateResponse × List DispatchRecord :=
  relayAndNormalize cfg
    [⟨"system", generate_system_text req⟩, ⟨"user", req.prompt⟩]
    req.model net

/-- The system instruction built by `explain` (lines 256–258). -/
def explain_system_text (req : ExplainRequest) : String :=
  let base := pyOrStr req.systemPrompt
    "You are an expert code explainer. Provide clear, concise explanations and note complexity or pitfalls."
  if optStrFalsy req.language then base
  else base ++ " The code language is " ++ (req.language.getD "") ++ "."

/-- The user prompt built by `explain` (line 260). -/
def explain_user_prompt (req : ExplainRequest) : String :=
  "Explain the following code:\n\n```" ++ (pyOrStr req.language "") ++ "\n" ++
    req.code ++ "\n```"

/-- Handler of `POST /explain` (lines 254–276). -/
def explain (cfg : Config) (req : ExplainRequest) (net : UpstreamOutcome) :
    Except HTTPError GenerateResponse × List DispatchRecord :=
  relayAndNormalize cfg
    [⟨"system", explain_system_text req⟩, ⟨"user", explain_user_prompt req⟩]
    req.model net

/-- The system instruction built by `debug` (lines 289–291). -/
def debug_system_text (req : DebugRequest) : String :=
  let base := pyOrStr req.systemPrompt
    "You are a senior software engineer specializing in debugging. Provide actionable steps and likely causes."
  if optStrFalsy req.language then base
  else base ++ " Focus on " ++ (req.language.getD "") ++ " specifics where applicable."

/-- The user prompt built by `debug` (lines 293–296). -/
def debug_user_prompt (req : DebugRequest) : String :=
  let base := "Analyze and debug the following code."
  let withErr := if optStrFalsy req.error then base
    else base ++ "\nObserved error:\n" ++ (req.error.getD "") ++ "\n"
  withErr ++ "\nCode:\n```" ++ (pyOrStr req.language "") ++ "\n" ++ req.code ++ "\n```"

/-- Handler of `POST /debug` (lines 287–312). -/
def debug (cfg : Config) (req : DebugRequest) (net : UpstreamOutcome) :
    Except HTTPError GenerateResponse × List DispatchRecord :=
  relayAndNormalize cfg
    [⟨"system", debug_system_text req⟩, ⟨"user", debug_user_prompt req⟩]
    req.model net

/-- Outcome of one endpoint call as seen by the HTTP caller: a 200 with
the normalized response, an `HTTPException` raised by the handler
(FastAPI serializes its status and detail), or a rejection of the request
body by FastAPI/pydantic schema validation before the handler runs (FastAPI
answers 422 Unprocessable Entity with its own default body, which is a
`detail` list, not the relay's error envelope — as exercised by
`tests/test_api_endpoints.py`). -/
inductive EndpointOutcome where
  | success (resp : GenerateResponse) : EndpointOutcome
  | handlerError (e : HTTPError) : EndpointOutcome
  | requestValidationError : EndpointOutcome

/-- HTTP status of an endpoint outcome; schema-validation rejections get
FastAPI's fixed 422. -/
def EndpointOutcome.status : EndpointOutcome → Nat
  | .success _ => 200
  | .handlerError e => e.status_code
  | .requestValidationError => 422

/-- `POST /generate` end to end: body validation, then the handler. -/
def generate_endpoint (cfg : Config) (body : Json) (net : UpstreamOutcome) :
    EndpointOutcome × List DispatchRecord :=
  match validateGenerateRequest body with
  | .error _ => (.requestValidationError, [])
  | .ok req =>
    match generate cfg req net with
    | (.ok resp, ds) => (.success resp, ds)
    | (.error e, ds) => (.handlerError e, ds)

/-- `POST /explain` end to end. -/
def explain_endpoint (cfg : Config) (body : Json) (net : UpstreamOutcome) :
    EndpointOutcome × List DispatchRecord :=
  match validateExplainRequest body with
  | .error _ => (.requestValidationError, [])
  | .ok req =>
    match explain cfg req net with
    | (.ok resp, ds) => (.success resp, ds)
    | (.error e, ds) => (.handlerError e, ds)

/-- `POST /debug` end to end. -/
def debug_endpoint (cfg : Config) (body : Json) (net : UpstreamOutcome) :
    EndpointOutcome × List DispatchRecord :=
  match validateDebugRequest body with
  | .error _ => (.requestValidationError, [])
  | .ok req =>
    match debug cfg req net with
    | (.ok resp, ds) => (.success resp, ds)
    | (.error e, ds) => (.handlerError e, ds)

/-- The list comprehension `[str(o) for o in parsed]` of `_parse_cors`:
iterating a decoded JSON value as Python does (list elements, string
characters, dict keys) and applying `str`; non-iterables raise, which the
surrounding `except` catches. -/
def strListOfIterable (parsed : Json) : Except Unit (List String) :=
  match parsed with
  | .arr elems => .ok (elems.map pyStr)
  | .str s => .ok (s.toList.map (fun c => String.mk [c]))
  | .obj fields => .ok (fields.map (fun kv => kv.1))
  | _ => .error ()

/-- Python `str.strip()`: remove leading and trailing whitespace. -/
def pyStrip (s : String) : String :=
  String.mk
    (((s.data.dropWhile Char.isWhitespace).reverse.dropWhile Char.isWhitespace).reverse)

/-- Python `.startswith("[")`: the first character is an opening
bracket. -/
def startsWithBracket (s : String) : Bool :=
  match s.data with
  | c :: _ => c == '['
  | [] => false

/-- Helper of `pySplitComma`: accumulate the current piece (reversed)
while walking the characters. -/
def splitCommaAux : List Char → List Char → List String
  | [], acc => [String.mk acc.reverse]
  | c :: rest, acc =>
    if c == ',' then String.mk acc.reverse :: splitCommaAux rest []
    else splitCommaAux rest (c :: acc)

/-- Python `str.split(",")`: split at every comma; `n` commas yield
`n + 1` pieces. -/
def pySplitComma (s : String) : List String := splitCommaAux s.data []

/-- `_parse_cors(origins_raw)` (lines 21–33).  `json.loads` is the Python
standard-library JSON parser, passed here as a parameter `loads`
(returning `Except.error` when parsing raises); every exception in the
`try` block falls back to the permissive single-origin default. -/
def _parse_cors (loads : String → Except Unit Json) (origins_raw : Option String) :
    List String :=
  match origins_raw with
  | none => ["http://localhost:3000"]
  | some s =>
    if s == "" then ["http://localhost:3000"]
    else if startsWithBracket (pyStrip s) then
      match loads s with
      | .error _ => ["http://localhost:3000"]
      | .ok parsed =>
        match strListOfIterable parsed with
        | .error _ => ["http://localhost:3000"]
        | .ok l => l
    else
      ((pySplitComma s).filter (fun o => !(pyStrip o == ""))).map (fun o => pyStrip o)

/-! ## Helper constructions for the theorems -/

/-- A well-formed upstream response object in which each of the five
parts named by the spec — `choices`, `choices[0].message`,
`choices[0].message.content`, `usage`, `model` — is present or absent
according to a flag, and present parts carry well-typed payloads. -/
def upstreamResp (hasChoices hasMessage hasContent hasUsage hasModel : Bool)
    (content : String) (p c t : Int) (model : String) : Json :=
  .obj
    ((if hasChoices then
        [("choices", Json.arr [Json.obj
          (if hasMessage then
            [("message", Json.obj
              (if hasContent then [("content", Json.str content)] else []))]
          else [])])]
      else []) ++
     (if hasUsage then
        [("usage", Json.obj [("prompt_tokens", Json.num p),
          ("completion_tokens", Json.num c), ("total_tokens", Json.num t)])]
      else []) ++
     (if hasModel then [("model", Json.str model)] else []))

/-! ## C1 -/

/-- **C1.** For every well-formed upstream response object, with any of
`choices`, `choices[0].message`, `choices[0].message.content`, `usage`
and `model` independently missing, `_extract_content_and_usage` returns
a result without raising; content degrades to the empty string, each
usage counter degrades to null, and the model degrades to the configured
default. -/
theorem extract_never_raises_and_degrades
    (d content model : String) (p c t : Int)
    (hasChoices hasMessage hasContent hasUsage hasModel : Bool) :
    ∃ rContent rUsage rModel,
      _extract_content_and_usage d
          (upstreamResp hasChoices hasMessage hasContent hasUsage hasModel
            content p c t model)
        = .ok ⟨rContent, rUsage, rModel⟩ ∧
      ((hasChoices = false ∨ hasMessage = false ∨ hasContent = false) →
        rContent = .str "") ∧
      (hasUsage = false → rUsage = ⟨none, none, none⟩) ∧
      (hasModel = false → rModel = .str d) := by
  cases hasChoices <;> cases hasMessage <;> cases hasContent <;>
    cases hasUsage <;> cases hasModel <;>
    exact ⟨_, _, _, rfl,
      by intro h; first | rfl | simp at h,
      by intro h; first | rfl | simp at h,
      by intro h; first | rfl | simp at h⟩

/-! ## Shared lemmas about the pipeline -/

/-- `x or d` on two strings picks the second exactly when the first is
empty. -/
theorem pyOr_str (s t : String) :
    pyOr (.str s) (.str t) = .str (if s == "" then t else s) := by
  unfold pyOr Json.falsy
  cases hs : s == "" <;> simp [hs]

/-- When the credential is set and the upstream responds 2xx/3xx with
valid JSON, `_call_openai_chat` returns the decoded body and has
performed exactly the one recorded POST. -/
theorem call_response_ok (cfg : Config) (messages : List ChatMessage)
    (model : Option String) (st : Nat) (data : Json) (txt : String)
    (hkey : keyFalsy cfg.OPENAI_API_KEY = false) (hst : st < 400) :
    _call_openai_chat cfg messages model (.response st (.ok data) txt)
      = (.ok data, [dispatchOf cfg messages model]) := by
  have h400 : ¬ (st ≥ 400) := by omega
  unfold _call_openai_chat
  simp [hkey, h400]

/-- Inversion of a successful `relayAndNormalize` run: the upstream call
returned JSON, extraction succeeded, and the response was built from the
extraction results. -/
theorem relayAndNormalize_ok_elim (cfg : Config) (messages : List ChatMessage)
    (model : Option String) (net : UpstreamOutcome)
    (resp : GenerateResponse) (ds : List DispatchRecord)
    (h : relayAndNormalize cfg messages model net = (.ok resp, ds)) :
    ∃ raw parsed,
      _call_openai_chat cfg messages model net = (.ok raw, ds) ∧
      _extract_content_and_usage cfg.DEFAULT_MODEL raw = .ok parsed ∧
      mkGenerateResponse parsed.content parsed.model parsed.usage = .ok resp := by
  unfold relayAndNormalize at h
  split at h
  · simp at h
  · rename_i raw ds' heq
    split at h
    · simp at h
    · simp at h
    · rename_i parsed hparsed
      split at h
      · simp at h
      · simp at h
      · rename_i resp' hresp
        simp only [Prod.mk.injEq, Except.ok.injEq] at h
        obtain ⟨h1, h2⟩ := h
        subst h1; subst h2
        exact ⟨raw, parsed, heq, hparsed, hresp⟩

/-- A successfully constructed `GenerateResponse` carries exactly the
usage object it was given. -/
theorem mkGenerateResponse_ok_usage (content model : Json) (usage : AIResponseUsage)
    (resp : GenerateResponse)
    (h : mkGenerateResponse content model usage = .ok resp) :
    resp.usage = some usage := by
  unfold mkGenerateResponse at h
  split at h
  · split at h
    · simp only [Except.ok.injEq] at h
      subst h; rfl
    · simp at h
  · simp at h

/-- If extraction succeeds on an object that has no `usage` key, all
three usage counters are null. -/
theorem extract_usage_none (d : String) (fields : List (String × Json))
    (hn : fields.find? (fun kv => kv.1 == "usage") = none) :
    ∀ r, _extract_content_and_usage d (.obj fields) = .ok r →
      r.usage = ⟨none, none, none⟩ := by
  intro r h
  unfold _extract_content_and_usage at h
  simp only [dictGet, pyGet, hn, pyOr, Json.falsy, List.find?,
    mkAIResponseUsage, validateOptionalInt, if_true, Bool.true_eq,
    reduceIte] at h
  split at h
  · simp at h
  · split at h
    · simp at h
    · split at h
      · simp at h
      · simp only [Except.ok.injEq] at h
        subst h
        rfl

/-- Inversion: a successful `_call_openai_chat` on an upstream response
hands the handler exactly the decoded body. -/
theorem call_response_ok_inv (cfg : Config) (messages : List ChatMessage)
    (model : Option String) (st : Nat) (data : Json) (txt : String)
    (raw : Json) (ds : List DispatchRecord)
    (h : _call_openai_chat cfg messages model (.response st (.ok data) txt)
      = (.ok raw, ds)) : raw = data := by
  unfold _call_openai_chat at h
  split at h
  · simp at h
  · by_cases h400 : st ≥ 400
    · simp [h400] at h
    · simp [h400, Prod.mk.injEq, Except.ok.injEq] at h
      exact h.1.symm

/-- Witness for C1 at a concrete input with every field missing. -/
theorem extract_never_raises_and_degrades_witness :
    ∃ rContent rUsage rModel,
      _extract_content_and_usage "gpt-4o-mini"
          (upstreamResp false false false false false "hi" 1 2 3 "m")
        = .ok ⟨rContent, rUsage, rModel⟩ ∧
      ((false = false ∨ false = false ∨ false = false) → rContent = .str "") ∧
      (false = false → rUsage = ⟨none, none, none⟩) ∧
      (false = false → rModel = .str "gpt-4o-mini") :=
  extract_never_raises_and_degrades "gpt-4o-mini" "hi" "m" 1 2 3
    false false false false false

/-! ## C2 -/

/-- **C2.** For every upstream 2xx JSON response object whose `usage` key
is missing, normalization yields a usage object with every counter null
rather than raising: whenever extraction completes, all three counters
are null, and whenever the `generate` handler completes on such a
response, the response returned to the caller carries the all-null usage
object. -/
theorem generate_usage_missing_all_null
    (cfg : Config) (req : GenerateRequest) (st : Nat) (txt : String)
    (fields : List (String × Json))
    (hn : fields.find? (fun kv => kv.1 == "usage") = none) :
    (∀ r, _extract_content_and_usage cfg.DEFAULT_MODEL (.obj fields) = .ok r →
      r.usage = ⟨none, none, none⟩) ∧
    (∀ resp ds,
      generate cfg req (.response st (.ok (.obj fields)) txt) = (.ok resp, ds) →
      resp.usage = some ⟨none, none, none⟩) := by
  refine ⟨extract_usage_none cfg.DEFAULT_MODEL fields hn, ?_⟩
  intro resp ds h
  obtain ⟨raw, parsed, hcall, hex, hmk⟩ :=
    relayAndNormalize_ok_elim _ _ _ _ _ _ h
  obtain rfl := call_response_ok_inv _ _ _ _ _ _ _ _ hcall
  have husage := extract_usage_none cfg.DEFAULT_MODEL fields hn parsed hex
  have := mkGenerateResponse_ok_usage _ _ _ _ hmk
  rw [this, husage]

/-- Witness for C2: a concrete 200 response without `usage` (content,
choices and model present), run through the `generate` handler end to
end. -/
theorem generate_usage_missing_all_null_witness :
    (∀ r, _extract_content_and_usage "gpt-4o-mini"
        (.obj [("choices", .arr [.obj [("message", .obj [("content", .str "hello")])]]),
               ("model", .str "gpt-4o-mini")]) = .ok r →
      r.usage = ⟨none, none, none⟩) ∧
    (∀ resp ds,
      generate ⟨"gpt-4o-mini", some "k", "https://api.openai.com/v1", 30⟩
          ⟨"Say hello", none, none, none⟩
          (.response 200 (.ok (.obj [("choices",
            .arr [.obj [("message", .obj [("content", .str "hello")])]]),
            ("model", .str "gpt-4o-mini")])) "")
        = (.ok resp, ds) →
      resp.usage = some ⟨none, none, none⟩) :=
  generate_usage_missing_all_null
    ⟨"gpt-4o-mini", some "k", "https://api.openai.com/v1", 30⟩
    ⟨"Say hello", none, none, none⟩ 200 ""
    [("choices", .arr [.obj [("message", .obj [("content", .str "hello")])]]),
     ("model", .str "gpt-4o-mini")]
    rfl

/-! ## C3 -/

/-- The uniform error envelope of the spec: the `detail` of the raised
`HTTPException` is `{error: {message, code}}` with a message string and a
machine-readable code string drawn from the error taxonomy. -/
def errorEnvelopeShaped (e : HTTPError) : Prop :=
  ∃ msg code : String,
    e.detail = .obj [("error", .obj [("message", .str msg), ("code", .str code)])] ∧
    code ∈ ["missing_api_key", "upstream_timeout", "upstream_unreachable",
            "upstream_error", "invalid_upstream", "validation_error", "unexpected"]

/-- Every failure of `_call_openai_chat` is an envelope-shaped
`HTTPException`. -/
theorem call_error_envelope (cfg : Config) (messages : List ChatMessage)
    (model : Option String) (net : UpstreamOutcome)
    (e : HTTPError) (ds : List DispatchRecord)
    (h : _call_openai_chat cfg messages model net = (.error e, ds)) :
    errorEnvelopeShaped e := by
  unfold _call_openai_chat at h
  split at h
  · simp only [Prod.mk.injEq, Except.error.injEq] at h
    obtain ⟨rfl, -⟩ := h
    exact ⟨_, _, rfl, by simp⟩
  · split at h
    · simp only [Prod.mk.injEq, Except.error.injEq] at h
      obtain ⟨rfl, -⟩ := h
      exact ⟨_, _, rfl, by simp⟩
    · simp only [Prod.mk.injEq, Except.error.injEq] at h
      obtain ⟨rfl, -⟩ := h
      exact ⟨_, _, rfl, by simp⟩
    · split at h
      · simp only [Prod.mk.injEq, Except.error.injEq] at h
        obtain ⟨rfl, -⟩ := h
        exact ⟨_, _, rfl, by simp⟩
      · split at h
        · simp only [Prod.mk.injEq, Except.error.injEq] at h
          obtain ⟨rfl, -⟩ := h
          exact ⟨_, _, rfl, by simp⟩
        · simp at h

/-- Every failure of the shared handler body is an envelope-shaped
`HTTPException`. -/
theorem relay_error_envelope (cfg : Config) (messages : List ChatMessage)
    (model : Option String) (net : UpstreamOutcome)
    (e : HTTPError) (ds : List DispatchRecord)
    (h : relayAndNormalize cfg messages model net = (.error e, ds)) :
    errorEnvelopeShaped e := by
  unfold relayAndNormalize at h
  split at h
  · rename_i e' ds' heq
    simp only [Prod.mk.injEq, Except.error.injEq] at h
    obtain ⟨rfl, rfl⟩ := h
    exact call_error_envelope _ _ _ _ _ _ heq
  · split at h
    · simp only [Prod.mk.injEq, Except.error.injEq] at h
      obtain ⟨rfl, -⟩ := h
      exact ⟨_, _, rfl, by simp⟩
    · simp only [Prod.mk.injEq, Except.error.injEq] at h
      obtain ⟨rfl, -⟩ := h
      exact ⟨_, _, rfl, by simp⟩
    · split at h
      · simp only [Prod.mk.injEq, Except.error.injEq] at h
        obtain ⟨rfl, -⟩ := h
        exact ⟨_, _, rfl, by simp⟩
      · simp only [Prod.mk.injEq, Except.error.injEq] at h
        obtain ⟨rfl, -⟩ := h
        exact ⟨_, _, rfl, by simp⟩
      · simp at h

/-- **C3.** Every non-2xx outcome raised by any of the three relay
endpoints (`missing_api_key`, `upstream_timeout`, `upstream_unreachable`,
`upstream_error`, `invalid_upstream`, `validation_error`, `unexpected`)
surfaces in the same envelope shape `{error: {message, code}}` with a
message string and a machine-readable code string from that taxonomy. -/
theorem endpoints_error_envelope (cfg : Config)
    (greq : GenerateRequest) (ereq : ExplainRequest) (dreq : DebugRequest)
    (net : UpstreamOutcome) :
    (∀ e ds, generate cfg greq net = (.error e, ds) → errorEnvelopeShaped e) ∧
    (∀ e ds, explain cfg ereq net = (.error e, ds) → errorEnvelopeShaped e) ∧
    (∀ e ds, debug cfg dreq net = (.error e, ds) → errorEnvelopeShaped e) := by
  refine ⟨?_, ?_, ?_⟩ <;> intro e ds h <;>
    exact relay_error_envelope _ _ _ _ _ _ h

/-- Witness for C3: with no credential configured, each endpoint fails and
the raised error is envelope-shaped. -/
theorem endpoints_error_envelope_witness :
    errorEnvelopeShaped
      ⟨500, .obj [("error", .obj [("message", .str "OPENAI_API_KEY not set"),
        ("code", .str "missing_api_key")])]⟩ :=
  (endpoints_error_envelope ⟨"gpt-4o-mini", none, "https://api.openai.com/v1", 30⟩
    ⟨"p", none, none, none⟩ ⟨"c", none, none, none⟩ ⟨"c", none, none, none, none⟩
    .timeout).1 _ [] rfl

/-! ## C4 -/

/-- **C4 counterexample.** A body missing the required text field is
rejected by FastAPI's schema validation with HTTP status 422 — not 400 —
on all three endpoints, and no outbound call is attempted; over `/generate`
the rejection carries FastAPI's default body, not a `validation_error`
envelope raised by the handler. -/
theorem schema_validation_is_422_not_400 :
    generate_endpoint ⟨"gpt-4o-mini", some "k", "https://api.openai.com/v1", 30⟩
        (.obj []) .timeout = (.requestValidationError, []) ∧
    explain_endpoint ⟨"gpt-4o-mini", some "k", "https://api.openai.com/v1", 30⟩
        (.obj []) .timeout = (.requestValidationError, []) ∧
    debug_endpoint ⟨"gpt-4o-mini", some "k", "https://api.openai.com/v1", 30⟩
        (.obj []) .timeout = (.requestValidationError, []) ∧
    EndpointOutcome.requestValidationError.status = 422 ∧ (422 : Nat) ≠ 400 :=
  ⟨rfl, rfl, rfl, rfl, by decide⟩

/-- **C4 (amended).** A request body that fails schema validation — in
particular one missing the required text field — is rejected before
dispatch with HTTP status 422 (FastAPI's default validation rejection,
which does not use the handler's `validation_error` envelope), and no
outbound network call is attempted. -/
theorem schema_validation_rejects_before_dispatch
    (cfg : Config) (net : UpstreamOutcome) :
    (∀ body, validateGenerateRequest body = .error () →
      generate_endpoint cfg body net = (.requestValidationError, []) ∧
      (generate_endpoint cfg body net).1.status = 422) ∧
    (∀ body, validateExplainRequest body = .error () →
      explain_endpoint cfg body net = (.requestValidationError, []) ∧
      (explain_endpoint cfg body net).1.status = 422) ∧
    (∀ body, validateDebugRequest body = .error () →
      debug_endpoint cfg body net = (.requestValidationError, []) ∧
      (debug_endpoint cfg body net).1.status = 422) ∧
    (∀ fields, fields.find? (fun kv => kv.1 == "prompt") = none →
      validateGenerateRequest (.obj fields) = .error ()) ∧
    (∀ fields, fields.find? (fun kv => kv.1 == "code") = none →
      validateExplainRequest (.obj fields) = .error ()) ∧
    (∀ fields, fields.find? (fun kv => kv.1 == "code") = none →
      validateDebugRequest (.obj fields) = .error ()) := by
  refine ⟨?_, ?_, ?_, ?_, ?_, ?_⟩
  · intro body h
    unfold generate_endpoint
    rw [h]
    exact ⟨rfl, rfl⟩
  · intro body h
    unfold explain_endpoint
    rw [h]
    exact ⟨rfl, rfl⟩
  · intro body h
    unfold debug_endpoint
    rw [h]
    exact ⟨rfl, rfl⟩
  · intro fields hng
    simp [validateGenerateRequest, pyGet, hng, validateRequiredStr]
  · intro fields hnc
    simp [validateExplainRequest, pyGet, hnc, validateRequiredStr]
  · intro fields hnc
    simp [validateDebugRequest, pyGet, hnc, validateRequiredStr]

/-- Witness for the amended C4 at the empty body on `/generate`. -/
theorem schema_validation_rejects_before_dispatch_witness :
    generate_endpoint ⟨"gpt-4o-mini", some "k", "https://api.openai.com/v1", 30⟩
        (.obj []) .timeout = (.requestValidationError, []) ∧
    (generate_endpoint ⟨"gpt-4o-mini", some "k", "https://api.openai.com/v1", 30⟩
        (.obj []) .timeout).1.status = 422 :=
  (schema_validation_rejects_before_dispatch
    ⟨"gpt-4o-mini", some "k", "https://api.openai.com/v1", 30⟩ .timeout).1
    (.obj []) rfl

/-! ## C5 -/

/-- **C5 counterexample.** Schema validation accepts an empty primary
text field on all three endpoints — `{"prompt": ""}` and `{"code": ""}`
validate — and over `/generate` an empty prompt proceeds all the way to
an outbound network call instead of being rejected. -/
theorem empty_primary_field_accepted :
    validateGenerateRequest (.obj [("prompt", .str "")]) = .ok ⟨"", none, none, none⟩ ∧
    validateExplainRequest (.obj [("code", .str "")]) = .ok ⟨"", none, none, none⟩ ∧
    validateDebugRequest (.obj [("code", .str "")]) = .ok ⟨"", none, none, none, none⟩ ∧
    ∃ d, (generate_endpoint ⟨"gpt-4o-mini", some "k", "https://api.openai.com/v1", 30⟩
      (.obj [("prompt", .str "")]) .timeout).2 = [d] :=
  ⟨rfl, rfl, rfl, _, rfl⟩

/-- **C5 (amended).** The primary text field is required: a body without
it is rejected by schema validation, and a body carrying any string —
including the empty string, whose non-emptiness is not checked — is
accepted with that string as the field's value. -/
theorem primary_field_required_but_emptiness_unchecked (s : String) :
    validateGenerateRequest (.obj [("prompt", .str s)]) = .ok ⟨s, none, none, none⟩ ∧
    validateExplainRequest (.obj [("code", .str s)]) = .ok ⟨s, none, none, none⟩ ∧
    validateDebugRequest (.obj [("code", .str s)]) = .ok ⟨s, none, none, none, none⟩ ∧
    (∀ fields, fields.find? (fun kv => kv.1 == "prompt") = none →
      validateGenerateRequest (.obj fields) = .error ()) ∧
    (∀ fields, fields.find? (fun kv => kv.1 == "code") = none →
      validateExplainRequest (.obj fields) = .error ()) ∧
    (∀ fields, fields.find? (fun kv => kv.1 == "code") = none →
      validateDebugRequest (.obj fields) = .error ()) := by
  refine ⟨rfl, rfl, rfl, ?_, ?_, ?_⟩
  · intro fields hng
    simp [validateGenerateRequest, pyGet, hng, validateRequiredStr]
  · intro fields hnc
    simp [validateExplainRequest, pyGet, hnc, validateRequiredStr]
  · intro fields hnc
    simp [validateDebugRequest, pyGet, hnc, validateRequiredStr]

/-- Witness for the amended C5 at the empty string and the empty body. -/
theorem primary_field_required_but_emptiness_unchecked_witness :
    validateGenerateRequest (.obj [("prompt", .str "")]) = .ok ⟨"", none, none, none⟩ ∧
    validateGenerateRequest (.obj []) = .error () :=
  ⟨(primary_field_required_but_emptiness_unchecked "").1,
   (primary_field_required_but_emptiness_unchecked "").2.2.2.1 [] rfl⟩

/-! ## C6 -/

/-- With the credential set, `_call_openai_chat` performs exactly one
outbound POST, the one described by `dispatchOf`, whatever the network
does. -/
theorem call_dispatches_once (cfg : Config) (messages : List ChatMessage)
    (model : Option String) (net : UpstreamOutcome)
    (hkey : keyFalsy cfg.OPENAI_API_KEY = false) :
    (_call_openai_chat cfg messages model net).2 = [dispatchOf cfg messages model] := by
  unfold _call_openai_chat
  cases net with
  | timeout => simp [hkey]
  | connectionError m => simp [hkey]
  | response st j t =>
    by_cases h400 : st ≥ 400
    · simp [hkey, h400]
    · cases j <;> simp [hkey, h400]

/-- Normalization performs no further network traffic: the handler's
dispatch list is exactly the upstream call's. -/
theorem relay_dispatch_eq (cfg : Config) (messages : List ChatMessage)
    (model : Option String) (net : UpstreamOutcome) :
    (relayAndNormalize cfg messages model net).2
      = (_call_openai_chat cfg messages model net).2 := by
  rcases hc : _call_openai_chat cfg messages model net with ⟨res, ds⟩
  cases res with
  | error e => simp [relayAndNormalize, hc]
  | ok raw =>
    simp only [relayAndNormalize, hc]
    cases hex : _extract_content_and_usage cfg.DEFAULT_MODEL raw with
    | error e => cases e <;> simp [hex]
    | ok parsed =>
      cases hmk : mkGenerateResponse parsed.content parsed.model parsed.usage with
      | error e => cases e <;> simp [hex, hmk]
      | ok r => simp [hex, hmk]

/-- **C6 counterexample.** An empty-string model override is "supplied",
yet the dispatched payload carries the configured default model, not the
override: `model or DEFAULT_MODEL` falls back on any falsy override. -/
theorem dispatch_empty_model_override_uses_default :
    ∃ d, (generate ⟨"gpt-4o-mini", some "k", "https://api.openai.com/v1", 30⟩
        ⟨"p", none, none, some ""⟩ .timeout).2 = [d] ∧
      d.payload.model = "gpt-4o-mini" ∧ d.payload.model ≠ "" :=
  ⟨_, rfl, rfl, by decide⟩

/-- **C6 (amended).** For every dispatched request on any of the three
endpoints, exactly one outbound POST is made, to the configured base URL
(trailing slashes stripped) + `/chat/completions`, with a fixed
temperature of 0.2 and an ordered message sequence of exactly two
elements — the task's system instruction first, the user content second —
and the payload model resolves to the request override when one is
supplied and non-empty, else to the configured default. -/
theorem dispatch_contract (cfg : Config)
    (greq : GenerateRequest) (ereq : ExplainRequest) (dreq : DebugRequest)
    (net : UpstreamOutcome)
    (hkey : keyFalsy cfg.OPENAI_API_KEY = false) :
    ∃ dg de dd : DispatchRecord,
      (generate cfg greq net).2 = [dg] ∧
      (explain cfg ereq net).2 = [de] ∧
      (debug cfg dreq net).2 = [dd] ∧
      (∀ d, d = dg ∨ d = de ∨ d = dd →
        d.url = rstripSlashes cfg.OPENAI_BASE_URL ++ "/chat/completions" ∧
        d.payload.temperature = 0.2 ∧ d.payload.messages.length = 2 ∧
        d.payload.messages.map (fun m => m.role) = ["system", "user"]) ∧
      dg.payload.messages =
        [⟨"system", generate_system_text greq⟩, ⟨"user", greq.prompt⟩] ∧
      de.payload.messages =
        [⟨"system", explain_system_text ereq⟩, ⟨"user", explain_user_prompt ereq⟩] ∧
      dd.payload.messages =
        [⟨"system", debug_system_text dreq⟩, ⟨"user", debug_user_prompt dreq⟩] ∧
      (∀ m, greq.model = some m → m ≠ "" → dg.payload.model = m) ∧
      (greq.model = none ∨ greq.model = some "" →
        dg.payload.model = cfg.DEFAULT_MODEL) ∧
      (∀ m, ereq.model = some m → m ≠ "" → de.payload.model = m) ∧
      (ereq.model = none ∨ ereq.model = some "" →
        de.payload.model = cfg.DEFAULT_MODEL) ∧
      (∀ m, dreq.model = some m → m ≠ "" → dd.payload.model = m) ∧
      (dreq.model = none ∨ dreq.model = some "" →
        dd.payload.model = cfg.DEFAULT_MODEL) := by
  have hg : (generate cfg greq net).2
      = [dispatchOf cfg [⟨"system", generate_system_text greq⟩,
          ⟨"user", greq.prompt⟩] greq.model] := by
    rw [generate, relay_dispatch_eq, call_dispatches_once _ _ _ _ hkey]
  have he : (explain cfg ereq net).2
      = [dispatchOf cfg [⟨"system", explain_system_text ereq⟩,
          ⟨"user", explain_user_prompt ereq⟩] ereq.model] := by
    rw [explain, relay_dispatch_eq, call_dispatches_once _ _ _ _ hkey]
  have hd : (debug cfg dreq net).2
      = [dispatchOf cfg [⟨"system", debug_system_text dreq⟩,
          ⟨"user", debug_user_prompt dreq⟩] dreq.model] := by
    rw [debug, relay_dispatch_eq, call_dispatches_once _ _ _ _ hkey]
  refine ⟨_, _, _, hg, he, hd, ?_, rfl, rfl, rfl, ?_, ?_, ?_, ?_, ?_, ?_⟩
  · rintro d (rfl | rfl | rfl) <;> exact ⟨rfl, rfl, rfl, rfl⟩
  · intro m hm hne
    simp [dispatchOf, pyOrStr, hm, hne]
  · rintro (hm | hm) <;> simp [dispatchOf, pyOrStr, hm]
  · intro m hm hne
    simp [dispatchOf, pyOrStr, hm, hne]
  · rintro (hm | hm) <;> simp [dispatchOf, pyOrStr, hm]
  · intro m hm hne
    simp [dispatchOf, pyOrStr, hm, hne]
  · rintro (hm | hm) <;> simp [dispatchOf, pyOrStr, hm]

/-- Witness for the amended C6 with the credential set and no overrides. -/
theorem dispatch_contract_witness :
    ∃ dg de dd : DispatchRecord,
      (generate ⟨"gpt-4o-mini", some "k", "https://api.openai.com/v1", 30⟩
        ⟨"p", none, none, none⟩ .timeout).2 = [dg] ∧
      (explain ⟨"gpt-4o-mini", some "k", "https://api.openai.com/v1", 30⟩
        ⟨"c", none, none, none⟩ .timeout).2 = [de] ∧
      (debug ⟨"gpt-4o-mini", some "k", "https://api.openai.com/v1", 30⟩
        ⟨"c", none, none, none, none⟩ .timeout).2 = [dd] ∧
      (∀ d, d = dg ∨ d = de ∨ d = dd →
        d.url = rstripSlashes "https://api.openai.com/v1" ++ "/chat/completions" ∧
        d.payload.temperature = 0.2 ∧ d.payload.messages.length = 2 ∧
        d.payload.messages.map (fun m => m.role) = ["system", "user"]) ∧
      dg.payload.messages =
        [⟨"system", generate_system_text ⟨"p", none, none, none⟩⟩, ⟨"user", "p"⟩] ∧
      de.payload.messages =
        [⟨"system", explain_system_text ⟨"c", none, none, none⟩⟩,
         ⟨"user", explain_user_prompt ⟨"c", none, none, none⟩⟩] ∧
      dd.payload.messages =
        [⟨"system", debug_system_text ⟨"c", none, none, none, none⟩⟩,
         ⟨"user", debug_user_prompt ⟨"c", none, none, none, none⟩⟩] ∧
      (∀ m, (none : Option String) = some m → m ≠ "" → dg.payload.model = m) ∧
      ((none : Option String) = none ∨ (none : Option String) = some "" →
        dg.payload.model = "gpt-4o-mini") ∧
      (∀ m, (none : Option String) = some m → m ≠ "" → de.payload.model = m) ∧
      ((none : Option String) = none ∨ (none : Option String) = some "" →
        de.payload.model = "gpt-4o-mini") ∧
      (∀ m, (none : Option String) = some m → m ≠ "" → dd.payload.model = m) ∧
      ((none : Option String) = none ∨ (none : Option String) = some "" →
        dd.payload.model = "gpt-4o-mini") :=
  dispatch_contract ⟨"gpt-4o-mini", some "k", "https://api.openai.com/v1", 30⟩
    ⟨"p", none, none, none⟩ ⟨"c", none, none, none⟩ ⟨"c", none, none, none, none⟩
    .timeout rfl

/-! ## C7 -/

/-- **C7 counterexample.** Upstream status 500 with a body that parses as
JSON but lacks `error.message`: the relay's message is the re-serialized
JSON (`json.dumps`), not the raw upstream body text — here the raw body
has no space after the colon, the dumped one does. -/
theorem upstream_error_message_not_raw_body :
    ∃ e ds,
      _call_openai_chat ⟨"gpt-4o-mini", some "k", "https://api.openai.com/v1", 30⟩
          [] none (.response 500 (.ok (.obj [("a", .num 1)])) "\x7b\"a\":1\x7d")
        = (.error e, ds) ∧
      e.status_code = 502 ∧
      e.detail = .obj [("error", .obj [("message",
        .str "OpenAI API error: \x7b\"a\": 1\x7d"),
        ("code", .str "upstream_error")])] ∧
      "OpenAI API error: \x7b\"a\": 1\x7d"
        ≠ "OpenAI API error: " ++ "\x7b\"a\":1\x7d" :=
  ⟨_, _, rfl, rfl, rfl, by decide⟩

/-- **C7 (amended).** Every upstream response with HTTP status ≥ 400
fails with a 502 `upstream_error`; the envelope message is
`"OpenAI API error: "` followed by `error.message` when the body parses
as a JSON object carrying a non-empty `error.message` string, by
`json.dumps` of the parsed body when it parses as an object but
`error.message` is missing or falsy, and by the raw upstream body text
when the body is not parseable JSON. -/
theorem upstream_error_message_cases (cfg : Config)
    (messages : List ChatMessage) (model : Option String)
    (st : Nat) (text : String)
    (hkey : keyFalsy cfg.OPENAI_API_KEY = false) (hst : 400 ≤ st) :
    (∃ e ds,
      _call_openai_chat cfg messages model (.response st (.error ()) text)
        = (.error e, ds) ∧
      e.status_code = 502 ∧
      e.detail = .obj [("error", .obj [("message",
        .str ("OpenAI API error: " ++ text)),
        ("code", .str "upstream_error")])]) ∧
    (∀ fields efields m,
      pyGetD fields "error" (.obj []) = .obj efields →
      pyGet efields "message" = .str m → m ≠ "" →
      ∃ e ds,
        _call_openai_chat cfg messages model (.response st (.ok (.obj fields)) text)
          = (.error e, ds) ∧
        e.status_code = 502 ∧
        e.detail = .obj [("error", .obj [("message",
          .str ("OpenAI API error: " ++ m)),
          ("code", .str "upstream_error")])]) ∧
    (∀ fields efields,
      pyGetD fields "error" (.obj []) = .obj efields →
      (pyGet efields "message").falsy = true →
      ∃ e ds,
        _call_openai_chat cfg messages model (.response st (.ok (.obj fields)) text)
          = (.error e, ds) ∧
        e.status_code = 502 ∧
        e.detail = .obj [("error", .obj [("message",
          .str ("OpenAI API error: " ++ dumps (.obj fields))),
          ("code", .str "upstream_error")])]) := by
  refine ⟨?_, ?_, ?_⟩
  · refine ⟨⟨502, .obj [("error", .obj [("message",
        .str ("OpenAI API error: " ++ text)),
        ("code", .str "upstream_error")])]⟩,
      [dispatchOf cfg messages model], ?_, rfl, rfl⟩
    unfold _call_openai_chat
    simp [hkey, hst, upstreamErrorMessage]
  · intro fields efields m herr hmsg hne
    have hm : upstreamErrorMessage (.ok (.obj fields)) text = m := by
      simp only [upstreamErrorMessage, dictGetD, dictGet, herr, hmsg,
        Json.falsy, pyStr]
      simp [hne]
    refine ⟨⟨502, .obj [("error", .obj [("message",
        .str ("OpenAI API error: " ++ m)),
        ("code", .str "upstream_error")])]⟩,
      [dispatchOf cfg messages model], ?_, rfl, rfl⟩
    unfold _call_openai_chat
    simp [hkey, hst, hm]
  · intro fields efields herr hfalsy
    have hm : upstreamErrorMessage (.ok (.obj fields)) text
        = dumps (.obj fields) := by
      simp only [upstreamErrorMessage, dictGetD, dictGet, herr]
      simp [hfalsy]
    refine ⟨⟨502, .obj [("error", .obj [("message",
        .str ("OpenAI API error: " ++ dumps (.obj fields))),
        ("code", .str "upstream_error")])]⟩,
      [dispatchOf cfg messages model], ?_, rfl, rfl⟩
    unfold _call_openai_chat
    simp [hkey, hst, hm]

/-- Witness for the amended C7, covering the parse-failure case and the
`error.message` case at concrete inputs. -/
theorem upstream_error_message_cases_witness :
    (∃ e ds,
      _call_openai_chat ⟨"gpt-4o-mini", some "k", "https://api.openai.com/v1", 30⟩
          [] none (.response 500 (.error ()) "not json") = (.error e, ds) ∧
      e.status_code = 502 ∧
      e.detail = .obj [("error", .obj [("message",
        .str ("OpenAI API error: " ++ "not json")),
        ("code", .str "upstream_error")])]) ∧
    (∃ e ds,
      _call_openai_chat ⟨"gpt-4o-mini", some "k", "https://api.openai.com/v1", 30⟩
          [] none (.response 500
            (.ok (.obj [("error", .obj [("message", .str "Model overloaded")])])) "")
        = (.error e, ds) ∧
      e.status_code = 502 ∧
      e.detail = .obj [("error", .obj [("message",
        .str ("OpenAI API error: " ++ "Model overloaded")),
        ("code", .str "upstream_error")])]) :=
  ⟨(upstream_error_message_cases
      ⟨"gpt-4o-mini", some "k", "https://api.openai.com/v1", 30⟩ [] none 500
      "not json" rfl (by decide)).1,
   (upstream_error_message_cases
      ⟨"gpt-4o-mini", some "k", "https://api.openai.com/v1", 30⟩ [] none 500
      "" rfl (by decide)).2.1
     [("error", .obj [("message", .str "Model overloaded")])]
     [("message", .str "Model overloaded")] "Model overloaded" rfl rfl (by decide)⟩

/-! ## C8 -/

/-- **C8.** When no API credential is configured (unset, or empty per
Python truthiness), every relay endpoint fails fast with HTTP status 500
and error code `missing_api_key`, and the outbound dispatch list is
empty: no network call is attempted. -/
theorem missing_api_key_fails_fast (cfg : Config)
    (greq : GenerateRequest) (ereq : ExplainRequest) (dreq : DebugRequest)
    (net : UpstreamOutcome)
    (hkey : keyFalsy cfg.OPENAI_API_KEY = true) :
    generate cfg greq net = (.error ⟨500, .obj [("error", .obj
      [("message", .str "OPENAI_API_KEY not set"),
       ("code", .str "missing_api_key")])]⟩, []) ∧
    explain cfg ereq net = (.error ⟨500, .obj [("error", .obj
      [("message", .str "OPENAI_API_KEY not set"),
       ("code", .str "missing_api_key")])]⟩, []) ∧
    debug cfg dreq net = (.error ⟨500, .obj [("error", .obj
      [("message", .str "OPENAI_API_KEY not set"),
       ("code", .str "missing_api_key")])]⟩, []) := by
  refine ⟨?_, ?_, ?_⟩ <;>
    simp [generate, explain, debug, relayAndNormalize, _call_openai_chat, hkey]

/-- Witness for C8 with the credential unset. -/
theorem missing_api_key_fails_fast_witness :
    generate ⟨"gpt-4o-mini", none, "https://api.openai.com/v1", 30⟩
        ⟨"p", none, none, none⟩ .timeout
      = (.error ⟨500, .obj [("error", .obj
          [("message", .str "OPENAI_API_KEY not set"),
           ("code", .str "missing_api_key")])]⟩, []) ∧
    explain ⟨"gpt-4o-mini", none, "https://api.openai.com/v1", 30⟩
        ⟨"c", none, none, none⟩ .timeout
      = (.error ⟨500, .obj [("error", .obj
          [("message", .str "OPENAI_API_KEY not set"),
           ("code", .str "missing_api_key")])]⟩, []) ∧
    debug ⟨"gpt-4o-mini", none, "https://api.openai.com/v1", 30⟩
        ⟨"c", none, none, none, none⟩ .timeout
      = (.error ⟨500, .obj [("error", .obj
          [("message", .str "OPENAI_API_KEY not set"),
           ("code", .str "missing_api_key")])]⟩, []) :=
  missing_api_key_fails_fast ⟨"gpt-4o-mini", none, "https://api.openai.com/v1", 30⟩
    ⟨"p", none, none, none⟩ ⟨"c", none, none, none⟩ ⟨"c", none, none, none, none⟩
    .timeout rfl

/-! ## C9 -/

/-- An upstream response carrying explicit values for
`choices[0].message.content` and `model` and no `usage`. -/
def contentModelResp (cv mv : Json) : Json :=
  .obj [("choices", .arr [.obj [("message", .obj [("content", cv)])]]),
        ("model", mv)]

/-- **C9.** The normalization fallbacks trigger on any falsy value, not
only on absence: a response carrying a falsy `model` (empty string or
null) and a falsy `content` (null or empty string) normalizes to the
empty content and the configured default model — identical to the result
when those fields are missing entirely. -/
theorem extract_falsy_fallbacks (d : String) (cv mv : Json)
    (hc : cv.falsy = true) (hm : mv.falsy = true) :
    _extract_content_and_usage d (contentModelResp cv mv)
      = .ok ⟨.str "", ⟨none, none, none⟩, .str d⟩ ∧
    _extract_content_and_usage d
        (.obj [("choices", .arr [.obj [("message", .obj [])]])])
      = .ok ⟨.str "", ⟨none, none, none⟩, .str d⟩ := by
  refine ⟨?_, rfl⟩
  have h1 : pyOr cv (.str "") = .str "" := by simp [pyOr, hc]
  have h2 : pyOr mv (.str d) = .str d := by simp [pyOr, hm]
  have ha : (Json.arr [Json.obj [("message", Json.obj [("content", cv)])]]).falsy
      = false := rfl
  have hb : (Json.obj [("content", cv)]).falsy = false := rfl
  have hn : (Json.null).falsy = true := rfl
  simp [contentModelResp, _extract_content_and_usage, dictGet, pyGet,
    pyOr, h1, h2, ha, hb, hn, hc, hm, mkAIResponseUsage,
    validateOptionalInt, pyIndex0, List.find?]

/-- Witness for C9 at `content = null` and `model = ""`. -/
theorem extract_falsy_fallbacks_witness :
    _extract_content_and_usage "gpt-4o-mini" (contentModelResp .null (.str ""))
      = .ok ⟨.str "", ⟨none, none, none⟩, .str "gpt-4o-mini"⟩ ∧
    _extract_content_and_usage "gpt-4o-mini"
        (.obj [("choices", .arr [.obj [("message", .obj [])]])])
      = .ok ⟨.str "", ⟨none, none, none⟩, .str "gpt-4o-mini"⟩ :=
  extract_falsy_fallbacks "gpt-4o-mini" .null (.str "") rfl rfl

/-! ## C10 -/

/-- **C10.** `_parse_cors` never raises (it is a total function into an
origin list); it returns exactly `["http://localhost:3000"]` when the
input is absent or empty and whenever the input starts with `[` but
`json.loads` fails on it — while a comma-separated input consisting only
of commas and whitespace yields the empty origin list, not the default. -/
theorem parse_cors_defaults_and_empty (loads : String → Except Unit Json) :
    _parse_cors loads none = ["http://localhost:3000"] ∧
    _parse_cors loads (some "") = ["http://localhost:3000"] ∧
    (∀ s, startsWithBracket (pyStrip s) = true → loads s = .error () →
      _parse_cors loads (some s) = ["http://localhost:3000"]) ∧
    (∀ s, s ≠ "" → startsWithBracket (pyStrip s) = false →
      (pySplitComma s).all (fun o => pyStrip o == "") = true →
      _parse_cors loads (some s) = []) := by
  refine ⟨rfl, rfl, ?_, ?_⟩
  · intro s hstarts hloads
    have hne : ¬ s = "" := by
      intro hs
      rw [hs] at hstarts
      exact absurd hstarts (by decide)
    unfold _parse_cors
    simp [hne, hstarts, hloads]
  · intro s hne hstarts hall
    unfold _parse_cors
    have hfil : (pySplitComma s).filter (fun o => !(pyStrip o == "")) = [] := by
      rw [List.filter_eq_nil_iff]
      intro a ha
      have := List.all_eq_true.mp hall a ha
      simp [this]
    simp [hne, hstarts, hfil]

/-- Witness for C10: a failed JSON-array parse falls back to the default,
and a commas-and-whitespace input yields the empty list. -/
theorem parse_cors_defaults_and_empty_witness :
    _parse_cors (fun _ => .error ()) (some "[") = ["http://localhost:3000"] ∧
    _parse_cors (fun _ => .error ()) (some ", ,") = [] :=
  ⟨(parse_cors_defaults_and_empty (fun _ => .error ())).2.2.1 "["
      (by decide) rfl,
   (parse_cors_defaults_and_empty (fun _ => .error ())).2.2.2 ", ,"
      (by decide) (by decide) (by decide)⟩

end ChatRelay
